import Mathlib

/-!
Verification development for the Tech-Stack-Crawler job-scraping pipeline.

The Python sources are shallowly embedded: pure helpers from db.py become
Lean functions on String and List, the PostgreSQL store becomes an explicit
DBState record threaded through the functions that touch it, external
collaborators (page fetcher, extraction service) become oracle parameters,
and the asyncio semaphore gate becomes a small-step transition relation.
-/

set_option maxRecDepth 4096

/-- Contiguous sublist test on character lists. -/
def charsContain (needle : List Char) : List Char → Bool
  | [] => needle.isPrefixOf []
  | c :: rest => needle.isPrefixOf (c :: rest) || charsContain needle rest

/-- Python substring test: needle in hay. Empty needle matches everything. -/
def strContains (hay needle : String) : Bool :=
  charsContain needle.data hay.data

/-- Python str.lower, character by character (the data here is ASCII). -/
def lowerStr (s : String) : String :=
  String.mk (s.data.map Char.toLower)

/-- Python str.strip: drop leading and trailing whitespace. -/
def trimStr (s : String) : String :=
  String.mk (((s.data.dropWhile Char.isWhitespace).reverse.dropWhile
    Char.isWhitespace).reverse)

/-- Python str.split on a one-character separator, on character lists.
Always returns a nonempty list; keeps empty segments, as Python does. -/
def splitOnChar (sep : Char) : List Char → List (List Char)
  | [] => [[]]
  | c :: rest =>
      match splitOnChar sep rest with
      | [] => [[c]]
      | seg :: segs =>
          if c = sep then [] :: seg :: segs else (c :: seg) :: segs

/-- Python str.split on a one-character separator, on strings. -/
def splitOnStr (sep : Char) (s : String) : List String :=
  (splitOnChar sep s.data).map String.mk

/-- url.split with the question mark, first component: strips the query string. -/
def stripQuery (url : String) : String :=
  (splitOnStr '?' url).headD ""

/-- SKILL_ALIASES table from db.py: lowercase alias to canonical name. -/
def SKILL_ALIASES : List (String × String) :=
  [ ("javascript", "JavaScript"), ("typescript", "TypeScript"),
    ("python", "Python"), ("java", "Java"), ("c#", "C#"),
    ("c", "C/C++"), ("c++", "C/C++"), ("golang", "Go"), ("go", "Go"),
    ("r", "R"),
    ("nodejs", "Node.js"), ("node.js", "Node.js"), ("node", "Node.js"),
    ("react.js", "React"), ("reactjs", "React"),
    ("vue.js", "Vue"), ("vuejs", "Vue"),
    ("angular.js", "Angular"), ("angularjs", "Angular"),
    ("pytorch", "PyTorch"), ("tensorflow", "TensorFlow"),
    ("scikit-learn", "scikit-learn"), ("numpy", "NumPy"), ("pandas", "pandas"),
    ("postgresql", "PostgreSQL"), ("postgres", "PostgreSQL"),
    ("mongodb", "MongoDB"), ("mysql", "MySQL"),
    ("amazon web services", "AWS"), ("aws", "AWS"),
    ("google cloud platform", "GCP"), ("google cloud", "GCP"), ("gcp", "GCP"),
    ("microsoft azure", "Azure"), ("azure", "Azure"),
    ("git", "Git"), ("github", "GitHub"), ("gitlab", "GitLab"),
    ("docker", "Docker"), ("kubernetes", "Kubernetes"), ("k8s", "Kubernetes"),
    ("jira", "Jira"), ("ci/cd", "CI/CD"), ("continuous integration", "CI/CD"),
    ("linux", "Linux"), ("unix", "Unix"), ("bash", "Bash"),
    ("powershell", "PowerShell"),
    ("scrum", "Scrum"), ("agile", "Agile"),
    ("matlab", "MATLAB") ]

/-- Python dict lookup SKILL_ALIASES[key] as an Option. -/
def aliasLookup (key : String) : Option String :=
  (SKILL_ALIASES.find? (fun p => p.1 = key)).map Prod.snd

/-- skip_terms list from normalize_skill in db.py. -/
def skip_terms : List String :=
  [ "problem solving", "communication", "teamwork", "fast-paced",
    "self-starter", "detail-oriented", "passionate", "motivated",
    "excellent", "strong", "good", "ability to", "experience with" ]

/-- keep_as_single list from normalize_skill in db.py. -/
def keep_as_single : List String :=
  [ "data structures", "algorithms", "data structures & algorithms",
    "data structures and algorithms", "object oriented",
    "machine learning", "deep learning", "computer vision",
    "natural language processing", "distributed systems" ]

/-- The append-loop over the slash-separated parts in normalize_skill:
for each part, if len(part) >= 2, append its alias image (or itself). -/
def splitPartsLoop (acc : List String) : List String → List String
  | [] => acc
  | part :: rest =>
      if 2 ≤ part.length then
        splitPartsLoop (acc ++ [(aliasLookup (lowerStr part)).getD part]) rest
      else
        splitPartsLoop acc rest

/-- normalize_skill from db.py, translated clause by clause. -/
def normalize_skill (skill_name : String) : List String :=
  let skill := trimStr skill_name
  if skill = "" then []
  else
    match aliasLookup (lowerStr skill) with
    | some canon => [canon]
    | none =>
      if skill.length < 2 then []
      else if skip_terms.any (fun term => strContains (lowerStr skill) term) then []
      else if keep_as_single.any (fun term => strContains (lowerStr skill) term) then [skill]
      else if strContains skill "/" && skill.length < 20 then
        let parts := (splitOnStr '/' skill).map trimStr
        let result := splitPartsLoop [] parts
        if result = [] then [skill] else result
      else [skill]

/-- Staged reference algorithm for skill normalization, written from the
specification text: trim and drop empty; alias-table short circuit; drop
short strings; drop soft-skill denylist matches; keep compound terms
unsplit; split short slash-joined strings, trimming, dropping short parts
and alias-mapping each survivor, falling back to the single string when
every part was dropped; otherwise a singleton. -/
def normalizeSkillSpec (raw : String) : List String :=
  let s := trimStr raw
  if s = "" then []
  else
    match aliasLookup (lowerStr s) with
    | some canonical => [canonical]
    | none =>
      if s.length < 2 then []
      else if skip_terms.any (fun term => strContains (lowerStr s) term) then []
      else if keep_as_single.any (fun term => strContains (lowerStr s) term) then [s]
      else if strContains s "/" && s.length < 20 then
        let surviving := ((splitOnStr '/' s).map trimStr).filter (fun p => 2 ≤ p.length)
        let mapped := surviving.map (fun p => (aliasLookup (lowerStr p)).getD p)
        if mapped = [] then [s] else mapped
      else [s]

/-- JOB_CATEGORIES ordered rule table from db.py: first match wins. -/
def JOB_CATEGORIES : List (String × List String) :=
  [ ("Machine Learning / AI",
      ["machine learning", "ml", " ai ", "artificial intelligence",
       "deep learning", "llm", "neural", "nlp", "computer vision",
       "genai", "gen ai", "ai agent", "ai sw", "ai intern",
       "computational"]),
    ("Data Science",
      ["data science", "data scientist", "data analyst", "business intelligence",
       "analytics", "data engineering", "data intern", "data platform",
       "data fabric", "data management", "failure analysis data", "pricing data",
       "risk analysis"]),
    ("Research",
      ["research", "scientist", "phd", "r&d", "bell labs"]),
    ("DevOps / Infrastructure",
      ["devops", "cloud", "sre", "infrastructure", "platform engineer",
       "reliability", "kubernetes", "aws", "azure", "gcp",
       "network systems", "network automation"]),
    ("Software Engineering",
      ["software", "developer", "swe", "full stack", "fullstack",
       "frontend", "backend", "web", "mobile", "ios", "android",
       "engineer", "engineering", "programmer", "coder", "technology",
       "digital", "automation", "gis", "gaming", "video algorithm",
       "implementation", "product development", "product manager",
       "simulation", "robotics", "rpa", "it ", "systems", "wireless",
       "mes ", "manufacturing execution", "industry 4.0",
       "digitalization", "dimensional", "innovation", "predictive",
       "language models", "algorithms", "6g", "digital twin",
       "platform", "adtech", "d365", "consulting", "euv", "agile",
       "product associate", "commerce"]) ]

/-- Inner loop of categorize_job_title: scan the keywords of one rule. -/
def anyKeywordMatches (title_lower : String) : List String → Bool
  | [] => false
  | k :: ks => if strContains title_lower k then true else anyKeywordMatches title_lower ks

/-- Outer loop of categorize_job_title: first rule with a matching keyword wins. -/
def scanRules (title_lower : String) : List (String × List String) → String
  | [] => "Other"
  | (cat, kws) :: rest =>
      if anyKeywordMatches title_lower kws then cat else scanRules title_lower rest

/-- categorize_job_title from db.py. A missing or empty title is falsy in
Python and returns the Other category at once. -/
def categorize_job_title (title : Option String) : String :=
  match title with
  | none => "Other"
  | some t => if t = "" then "Other" else scanRules (lowerStr t) JOB_CATEGORIES

/-- Reference formulation from the specification text: the category of the
first rule, in order, having a keyword that substring-matches the
lower-cased title, and Other when no rule matches. -/
def categorizeSpec (title : String) : String :=
  ((JOB_CATEGORIES.find? (fun rule =>
      rule.2.any (fun k => strContains (lowerStr title) k))).map Prod.fst).getD "Other"

/-- NON_TECH_JOB_PATTERNS denylist from db.py. -/
def NON_TECH_JOB_PATTERNS : List String :=
  [ "meteorologist", "weather", "clinical", "nurse", "nursing", "medical", "physician",
    "pharmacist", "environmental permitting", "storm water", "wastewater",
    "grid planning", "renewable energy", "power generation", "nuclear",
    "earth science", "geologist", "chemistry", "biologist", "ecology",
    "marketing", "sales", "accounting", "finance analyst", "hr ", "human resources",
    "legal", "attorney", "paralegal", "recruiter", "recruiting",
    "public affairs", "policy", "security investigator" ]

/-- is_tech_related_job from db.py: false for a falsy (missing or empty)
title and for any title containing a non-tech pattern. -/
def is_tech_related_job (title : Option String) : Bool :=
  match title with
  | none => false
  | some t =>
      if t = "" then false
      else NON_TECH_JOB_PATTERNS.all (fun pattern => !(strContains (lowerStr t) pattern))


/-- A candidate posting extracted from the GitHub README (github_scraper.py). -/
structure JobPosting where
  company : String
  role : String
  location : String
  apply_url : String
deriving DecidableEq, Repr

/-- The dict returned by the extraction service (parser.py): title, company
and a category-to-raw-skill-strings mapping. -/
structure ParsedRaw where
  job_title : Option String
  company : Option String
  skills : List (String × List String)
deriving DecidableEq, Repr

/-- The enriched dict handed to save_job_data: the parsed fields plus the
url and location added in process_single_job. -/
structure JobData where
  job_title : Option String
  company : Option String
  url : String
  location : String
  skills : List (String × List String)
deriving DecidableEq, Repr

/-- A row of the jobs table (unique on url). -/
structure JobRow where
  title : Option String
  company : Option String
  url : String
  raw_skills_data : JobData
  category : String
deriving DecidableEq, Repr

/-- A row of the skills table (unique on name). -/
structure SkillRow where
  name : String
  category : String
deriving DecidableEq, Repr

/-- A row of the failed_urls table (unique on url); timestamps are modelled
as abstract Nat instants. -/
structure FailedRow where
  url : String
  error : String
  attempts : Nat
  created_at : Nat
  last_attempt : Nat
deriving DecidableEq, Repr

/-- The PostgreSQL store. The SERIAL ids are abstracted away: jobs are
identified by their unique url, skills by their unique name, and the
job_skills junction table holds (job url, skill name) pairs. -/
structure DBState where
  jobs : List JobRow
  skills : List SkillRow
  job_skills : List (String × String)
  failed_urls : List FailedRow
deriving DecidableEq, Repr

/-- save_failed_url from db.py: INSERT with ON CONFLICT (url) DO UPDATE
SET attempts = attempts + 1, error = new error, last_attempt = now. -/
def save_failed_url (now : Nat) (db : DBState) (url error : String) : DBState :=
  if db.failed_urls.any (fun r => r.url = url) then
    { db with failed_urls := db.failed_urls.map (fun r =>
        if r.url = url then
          { r with attempts := r.attempts + 1, error := error, last_attempt := now }
        else r) }
  else
    { db with failed_urls := db.failed_urls ++
        [{ url := url, error := error, attempts := 1, created_at := now, last_attempt := now }] }

/-- get_processed_urls from job_tracker.py: urls already in the jobs table. -/
def get_processed_urls (db : DBState) : List String :=
  db.jobs.map (fun r => r.url)

/-- get_failed_urls from db.py: urls in the failed_urls table. -/
def get_failed_urls (db : DBState) : List String :=
  db.failed_urls.map (fun r => r.url)

/-- clear_failed_urls from db.py: DELETE FROM failed_urls. -/
def clear_failed_urls (db : DBState) : DBState :=
  { db with failed_urls := [] }

/-- The append-loop in filter_new_jobs: keep a job when neither its url nor
its query-stripped url is in the skip set. -/
def filterLoop (skip_urls : List String) : List JobPosting → List JobPosting
  | [] => []
  | job :: rest =>
      if !(skip_urls.contains job.apply_url)
          && !(skip_urls.contains (stripQuery job.apply_url)) then
        job :: filterLoop skip_urls rest
      else
        filterLoop skip_urls rest

/-- filter_new_jobs from job_tracker.py. The skip set is the union of the
processed urls and, when skip_failed holds, the failed urls. -/
def filter_new_jobs (db : DBState) (jobs : List JobPosting) (skip_failed : Bool) :
    List JobPosting :=
  let processed_urls := get_processed_urls db
  let failed_urls := if skip_failed then get_failed_urls db else []
  let skip_urls := processed_urls ++ failed_urls
  filterLoop skip_urls jobs

/-- One SQL statement of the save_job_data transaction body. -/
inductive DbOp where
  | insertJob (title company : Option String) (url : String)
      (payload : JobData) (category : String)
  | upsertSkill (name category : String)
  | insertLink (url name : String)
deriving DecidableEq, Repr

/-- Effect of one statement on the store. insertJob upserts on url,
updating only raw_skills_data and category on conflict; upsertSkill and
insertLink are ON CONFLICT DO NOTHING. -/
def applyOp (db : DBState) : DbOp → DBState
  | .insertJob title company url payload category =>
      if db.jobs.any (fun r => r.url = url) then
        { db with jobs := db.jobs.map (fun r =>
            if r.url = url then
              { r with raw_skills_data := payload, category := category }
            else r) }
      else
        { db with jobs := db.jobs ++ [⟨title, company, url, payload, category⟩] }
  | .upsertSkill name category =>
      if db.skills.any (fun r => r.name = name) then db
      else { db with skills := db.skills ++ [⟨name, category⟩] }
  | .insertLink url name =>
      if db.job_skills.contains (url, name) then db
      else { db with job_skills := db.job_skills ++ [(url, name)] }

/-- The statement sequence of the save_job_data transaction: the job upsert
(with the category computed from the title), then, for every raw skill
string and every normalized name it yields, a skill upsert under the raw
category and a job-skill link. -/
def save_job_data_ops (jd : JobData) : List DbOp :=
  DbOp.insertJob jd.job_title jd.company jd.url jd (categorize_job_title jd.job_title) ::
  jd.skills.flatMap (fun cs =>
    cs.2.flatMap (fun skill_name =>
      (normalize_skill skill_name).flatMap (fun clean_name =>
        [DbOp.upsertSkill clean_name cs.1, DbOp.insertLink jd.url clean_name])))

/-- Run the transaction statements in order; failAt = some k means the
statement at index k raises a database error. -/
def runOps (db : DBState) (ops : List DbOp) (failAt : Option Nat) : Except String DBState :=
  match ops, failAt with
  | [], _ => .ok db
  | _ :: _, some 0 => .error "Database Error"
  | op :: rest, some (n + 1) => runOps (applyOp db op) rest (some n)
  | op :: rest, none => runOps (applyOp db op) rest none

/-- save_job_data from db.py: skip non-tech titles before touching the
store; otherwise run the transaction, committing on success, and on any
exception roll back to the entry state without re-raising. -/
def save_job_data (failAt : Option Nat) (db : DBState) (job_data : JobData) : DBState :=
  if !(is_tech_related_job job_data.job_title) then db
  else
    match runOps db (save_job_data_ops job_data) failAt with
    | .ok db2 => db2
    | .error _ => db

/-- Outcome of the external page fetch (scrape_page): the rendered markdown
(possibly missing) or a raised exception. -/
inductive FetchOutcome where
  | ok (content : Option String)
  | raised (msg : String)
deriving DecidableEq, Repr

/-- Outcome of the extraction call (parse_job_text): a parsed dict, or the
None that parse_job_text returns after swallowing any service error. -/
inductive ParseOutcome where
  | ok (parsed : ParsedRaw)
  | failure
deriving DecidableEq, Repr

/-- ProcessResult dataclass from batch_processor.py. -/
structure ProcessResult where
  job : JobPosting
  success : Bool
  error : Option String
  parsed_data : Option JobData
deriving DecidableEq, Repr

/-- Python falsiness of an optional string: None or the empty string. -/
def pyFalsyStr : Option String → Bool
  | none => true
  | some s => s = ""

/-- Title enrichment in process_single_job: backfill from the candidate
role when the extraction gave nothing or the null sentinel. -/
def enrichTitle (parsed : ParsedRaw) (job : JobPosting) : Option String :=
  if pyFalsyStr parsed.job_title || parsed.job_title = some "null" then some job.role
  else parsed.job_title

/-- Company enrichment in process_single_job, symmetric to the title. -/
def enrichCompany (parsed : ParsedRaw) (job : JobPosting) : Option String :=
  if pyFalsyStr parsed.company || parsed.company = some "null" then some job.company
  else parsed.company

/-- The dict handed to save_job_data: enriched fields plus url and location. -/
def enrichedJobData (parsed : ParsedRaw) (job : JobPosting) : JobData :=
  { job_title := enrichTitle parsed job
    company := enrichCompany parsed job
    url := job.apply_url
    location := job.location
    skills := parsed.skills }

/-- Length of the fetched content, 0 when missing. -/
def contentLen : Option String → Nat
  | none => 0
  | some c => c.length

/-- process_single_job from batch_processor.py: fetch, length gate at 500
characters, extract, enrich, persist; every exception is converted into a
FAILED result for this candidate only. The persistFailAt oracle selects a
failing statement of the persistence transaction, if any. -/
def process_single_job (fetch : FetchOutcome) (parse : ParseOutcome)
    (persistFailAt : Option Nat) (db : DBState) (job : JobPosting) :
    ProcessResult × DBState :=
  match fetch with
  | .raised msg => (⟨job, false, some msg, none⟩, db)
  | .ok content =>
      if pyFalsyStr content || contentLen content < 500 then
        (⟨job, false, some "Scraping failed or content too short", none⟩, db)
      else
        match parse with
        | .failure => (⟨job, false, some "Parsing failed", none⟩, db)
        | .ok parsed =>
            let jd := enrichedJobData parsed job
            let db2 := save_job_data persistFailAt db jd
            (⟨job, true, none, some jd⟩, db2)

/-- Per-candidate oracle bundle for one batch entry. -/
structure JobOracle where
  fetch : FetchOutcome
  parse : ParseOutcome
  persistFailAt : Option Nat
deriving DecidableEq, Repr

/-- Result collection of a batch: one result per candidate, in input
order, threading the store through the candidate pipelines. -/
def runJobs (db : DBState) : List (JobPosting × JobOracle) → List ProcessResult × DBState
  | [] => ([], db)
  | (job, o) :: rest =>
      let step := process_single_job o.fetch o.parse o.persistFailAt db job
      let tail := runJobs step.2 rest
      (step.1 :: tail.1, tail.2)

/-- Running totals of the orchestrator (BatchProcessor fields). -/
structure Stats where
  processed : Nat
  succeeded : Nat
  failed : Nat
deriving DecidableEq, Repr

/-- The per-result body of the stats loop in process_batch: processed
always increments, then exactly one of succeeded or failed does. -/
def statsStep (s : Stats) (r : ProcessResult) : Stats :=
  { processed := s.processed + 1
    succeeded := if r.success then s.succeeded + 1 else s.succeeded
    failed := if r.success then s.failed else s.failed + 1 }

/-- The stats loop of process_batch over a result list. -/
def update_stats (s : Stats) (results : List ProcessResult) : Stats :=
  results.foldl statsStep s

/-- The final summary line of process_all: the success rate is printed only
when processed > 0, else the N/A sentinel, modelled as none. -/
def success_rate (s : Stats) : Option ℚ :=
  if s.processed > 0 then some ((s.succeeded : ℚ) / (s.processed : ℚ) * 100) else none

/-- process_batch from batch_processor.py: collect one result per candidate
in input order, then fold the stats loop over the results. -/
def process_batch (db : DBState) (s : Stats)
    (items : List (JobPosting × JobOracle)) :
    List ProcessResult × DBState × Stats :=
  let collected := runJobs db items
  (collected.1, collected.2, update_stats s collected.1)

/-- The parameter names of run_batch_pipeline in batch_processor.py. -/
def run_batch_pipeline_params : List String :=
  ["limit", "batch_size", "max_concurrent", "skip_existing"]

/-- The keyword names run_once in scheduler.py passes to run_batch_pipeline. -/
def run_once_call_kwargs : List String :=
  ["limit", "batch_size", "max_concurrent", "skip_existing", "skip_failed"]

/-- Python call binding: every keyword must name a parameter, otherwise the
call raises TypeError before the callee body runs. -/
def kwargs_accepted (params kwargs : List String) : Bool :=
  kwargs.all (fun k => params.contains k)

/-- JobScheduler construction arguments. -/
structure SchedulerConfig where
  interval_hours : Nat
  batch_size : Nat
  max_concurrent : Nat
  max_jobs_per_run : Option Nat
  skip_failed : Bool
deriving DecidableEq, Repr

/-- The stat dict run_once returns. -/
structure RunStats where
  success : Bool
  jobs_processed : Nat
  jobs_succeeded : Nat
  elapsed_seconds : Nat
  error : Option String
deriving DecidableEq, Repr

/-- run_once from scheduler.py. The call to run_batch_pipeline is bound
first: if its keywords do not match the callee parameters the call raises
TypeError inside the try block and the except branch returns the failure
stat dict. The returned Bool records whether the pipeline body was entered;
pipelineOutcome is what the pipeline would produce were it invoked. -/
def run_once (cfg : SchedulerConfig)
    (pipelineOutcome : Except String (List ProcessResult)) (elapsed : Nat) :
    RunStats × Bool :=
  let _ := cfg
  if kwargs_accepted run_batch_pipeline_params run_once_call_kwargs then
    match pipelineOutcome with
    | .ok results =>
        ({ success := true, jobs_processed := results.length,
           jobs_succeeded := (results.filter (fun r => r.success)).length,
           elapsed_seconds := elapsed, error := none }, true)
    | .error e =>
        ({ success := false, jobs_processed := 0, jobs_succeeded := 0,
           elapsed_seconds := 0, error := some e }, true)
  else
    ({ success := false, jobs_processed := 0, jobs_succeeded := 0,
       elapsed_seconds := 0,
       error := some ("run_batch_pipeline() got an unexpected keyword argument " ++
         String.intercalate ", " (run_once_call_kwargs.filter
           (fun k => !(run_batch_pipeline_params.contains k)))) }, false)

/-- The dedup-filter invocation inside run_batch_pipeline: filter_new_jobs
is called with the jobs argument alone, so skip_failed takes its default
value true no matter what retry mode the scheduler requested. The unused
cfg argument records that no scheduler setting reaches this call. -/
def run_batch_pipeline_filter (cfg : SchedulerConfig) (db : DBState)
    (jobs : List JobPosting) : List JobPosting :=
  let _ := cfg
  filter_new_jobs db jobs true

/-- run_scheduled_pipeline wiring in scheduler.py: the scheduler is built
with skip_failed = not retry_failed. -/
def run_scheduled_pipeline_config (interval_hours batch_size max_concurrent : Nat)
    (max_jobs : Option Nat) (retry_failed : Bool) : SchedulerConfig :=
  ⟨interval_hours, batch_size, max_concurrent, max_jobs, !retry_failed⟩

/-- Stage of one candidate task relative to the admission gate: queued
before the async-with acquires the semaphore, inflight while it holds a
slot (fetching/extracting/persisting), done after release. -/
inductive TaskPhase where
  | queued
  | inflight
  | done
deriving DecidableEq, Repr

/-- State of the gate: free semaphore slots plus the task stages. -/
structure GateState where
  sem : Nat
  tasks : List TaskPhase
deriving DecidableEq, Repr

/-- Tasks currently holding a slot. -/
def inflightCount (tasks : List TaskPhase) : Nat :=
  tasks.count TaskPhase.inflight

/-- One cooperative scheduling step of the gather-plus-semaphore fragment
of process_batch: a queued task may enter only when a slot is free
(acquire decrements the semaphore), and a task in flight may finish
(release increments it). No other action touches the gate. -/
inductive GateStep : GateState → GateState → Prop where
  | acquire (sem : Nat) (tasks : List TaskPhase) (i : Nat)
      (htask : tasks.get? i = some TaskPhase.queued) :
      GateStep ⟨sem + 1, tasks⟩ ⟨sem, tasks.set i TaskPhase.inflight⟩
  | release (sem : Nat) (tasks : List TaskPhase) (i : Nat)
      (htask : tasks.get? i = some TaskPhase.inflight) :
      GateStep ⟨sem, tasks⟩ ⟨sem + 1, tasks.set i TaskPhase.done⟩

/-- Initial gate state: the semaphore constructed with max_concurrent
slots and every one of the n submitted tasks still queued. -/
def gateInit (max_concurrent n : Nat) : GateState :=
  ⟨max_concurrent, List.replicate n TaskPhase.queued⟩

/-- States the run can reach from the initial gate state. -/
def GateReachable (max_concurrent n : Nat) (st : GateState) : Prop :=
  Relation.ReflTransGen GateStep (gateInit max_concurrent n) st

/-- The skip set named by the specification: urls already persisted as
JobRecord together with, unless failure-retry is requested, the urls in
the failure ledger. -/
def skipSet (db : DBState) (skip_failed : Bool) : List String :=
  get_processed_urls db ++ (if skip_failed then get_failed_urls db else [])

lemma splitPartsLoop_eq (acc parts : List String) :
    splitPartsLoop acc parts =
      acc ++ (parts.filter (fun p => 2 ≤ p.length)).map
        (fun p => (aliasLookup (lowerStr p)).getD p) := by
  induction parts generalizing acc with
  | nil => simp [splitPartsLoop]
  | cons part rest ih =>
      by_cases h : 2 ≤ part.length <;>
        simp [splitPartsLoop, h, ih, List.filter_cons]

lemma anyKeywordMatches_eq (tl : String) (kws : List String) :
    anyKeywordMatches tl kws = kws.any (fun k => strContains tl k) := by
  induction kws with
  | nil => rfl
  | cons k ks ih =>
      by_cases h : strContains tl k <;> simp [anyKeywordMatches, h, ih]

lemma scanRules_eq_find (tl : String) (rules : List (String × List String)) :
    scanRules tl rules =
      ((rules.find? (fun rule => rule.2.any (fun k => strContains tl k))).map
        Prod.fst).getD "Other" := by
  induction rules with
  | nil => rfl
  | cons r rs ih =>
      obtain ⟨cat, kws⟩ := r
      by_cases h : kws.any (fun k => strContains tl k)
      · simp [scanRules, anyKeywordMatches_eq, h]
      · simp [scanRules, anyKeywordMatches_eq, h, ih]

lemma filterLoop_eq_filter (skip : List String) (jobs : List JobPosting) :
    filterLoop skip jobs = jobs.filter (fun j =>
      !(skip.contains j.apply_url) && !(skip.contains (stripQuery j.apply_url))) := by
  induction jobs with
  | nil => rfl
  | cons j rest ih =>
      by_cases h1 : skip.contains j.apply_url <;>
        by_cases h2 : skip.contains (stripQuery j.apply_url) <;>
          simp [filterLoop, h1, h2, ih, List.filter_cons]

lemma update_stats_invariant (results : List ProcessResult) :
    ∀ s : Stats, s.processed = s.succeeded + s.failed →
      (update_stats s results).processed =
        (update_stats s results).succeeded + (update_stats s results).failed := by
  induction results with
  | nil => intro s h; exact h
  | cons r rest ih =>
      intro s h
      have hstep : (statsStep s r).processed =
          (statsStep s r).succeeded + (statsStep s r).failed := by
        by_cases hr : r.success <;> simp [statsStep, hr] <;> omega
      simpa [update_stats, List.foldl_cons] using ih (statsStep s r) hstep

lemma applyOp_failed_urls (db : DBState) (op : DbOp) :
    (applyOp db op).failed_urls = db.failed_urls := by
  cases op <;> simp only [applyOp] <;> split <;> rfl

lemma runOps_ok_failed_urls (ops : List DbOp) :
    ∀ (db db2 : DBState) (failAt : Option Nat),
      runOps db ops failAt = .ok db2 → db2.failed_urls = db.failed_urls := by
  induction ops with
  | nil =>
      intro db db2 failAt h
      cases failAt <;> simp [runOps] at h <;> simp [← h]
  | cons op rest ih =>
      intro db db2 failAt h
      match failAt with
      | none =>
          have := ih (applyOp db op) db2 none (by simpa [runOps] using h)
          rw [this, applyOp_failed_urls]
      | some 0 => simp [runOps] at h
      | some (n + 1) =>
          have := ih (applyOp db op) db2 (some n) (by simpa [runOps] using h)
          rw [this, applyOp_failed_urls]

lemma save_job_data_failed_urls (failAt : Option Nat) (db : DBState) (jd : JobData) :
    (save_job_data failAt db jd).failed_urls = db.failed_urls := by
  unfold save_job_data
  by_cases ht : is_tech_related_job jd.job_title
  · simp only [ht, Bool.not_true, Bool.false_eq_true, if_false]
    rcases hrun : runOps db (save_job_data_ops jd) failAt with db2 | db2
    · simp
    · exact runOps_ok_failed_urls _ db db2 failAt hrun
  · simp [ht]

lemma process_single_job_failed_urls (fetch : FetchOutcome) (parse : ParseOutcome)
    (failAt : Option Nat) (db : DBState) (job : JobPosting) :
    (process_single_job fetch parse failAt db job).2.failed_urls = db.failed_urls := by
  cases fetch with
  | raised msg => rfl
  | ok content =>
      by_cases hc : pyFalsyStr content || contentLen content < 500
      · simp [process_single_job, hc]
      · cases parse with
        | failure => simp [process_single_job, hc]
        | ok parsed => simp [process_single_job, hc, save_job_data_failed_urls]

lemma runOps_error_of_lt (ops : List DbOp) :
    ∀ (db : DBState) (k : Nat), k < ops.length →
      runOps db ops (some k) = .error "Database Error" := by
  induction ops with
  | nil => intro db k h; simp at h
  | cons op rest ih =>
      intro db k h
      match k with
      | 0 => rfl
      | n + 1 =>
          have : n < rest.length := by simpa using h
          simpa [runOps] using ih (applyOp db op) n this

lemma count_set_queued_to_inflight (l : List TaskPhase) :
    ∀ i, l.get? i = some TaskPhase.queued →
      (l.set i TaskPhase.inflight).count TaskPhase.inflight =
        l.count TaskPhase.inflight + 1 := by
  induction l with
  | nil => intro i h; simp at h
  | cons c rest ih =>
      intro i h
      cases i with
      | zero =>
          simp only [List.get?_cons_zero, Option.some.injEq] at h
          subst h
          simp [List.count_cons]
      | succ j =>
          simp only [List.get?_cons_succ] at h
          simp [List.count_cons, ih j h]
          omega

lemma count_set_inflight_to_done (l : List TaskPhase) :
    ∀ i, l.get? i = some TaskPhase.inflight →
      (l.set i TaskPhase.done).count TaskPhase.inflight + 1 =
        l.count TaskPhase.inflight := by
  induction l with
  | nil => intro i h; simp at h
  | cons c rest ih =>
      intro i h
      cases i with
      | zero =>
          simp only [List.get?_cons_zero, Option.some.injEq] at h
          subst h
          simp [List.count_cons]
      | succ j =>
          simp only [List.get?_cons_succ] at h
          have hr := ih j h
          simp [List.count_cons]
          omega

lemma gateStep_preserves (m : Nat) (st st2 : GateState)
    (hstep : GateStep st st2) (hinv : st.sem + inflightCount st.tasks = m) :
    st2.sem + inflightCount st2.tasks = m := by
  cases hstep with
  | acquire sem tasks i htask =>
      have hc := count_set_queued_to_inflight tasks i htask
      simp only [inflightCount] at *
      omega
  | release sem tasks i htask =>
      have hc := count_set_inflight_to_done tasks i htask
      simp only [inflightCount] at *
      omega

lemma inflightCount_replicate_queued (n : Nat) :
    inflightCount (List.replicate n TaskPhase.queued) = 0 := by
  induction n with
  | zero => rfl
  | succ k ih => simpa [inflightCount, List.replicate_succ, List.count_cons] using ih

lemma gateReachable_inv (m n : Nat) (st : GateState)
    (h : GateReachable m n st) : st.sem + inflightCount st.tasks = m := by
  induction h with
  | refl => simp [gateInit, inflightCount_replicate_queued]
  | tail hr hstep ih => exact gateStep_preserves m _ _ hstep ih

/-- Empty store, and concrete fixtures used by the witness theorems. -/
def dbEmpty : DBState := ⟨[], [], [], []⟩

def exampleJob : JobPosting :=
  ⟨"Acme", "Software Engineer Intern", "Toronto, ON", "https://jobs.example.com/1?ref=x"⟩

def techParsed : ParsedRaw :=
  ⟨some "Software Engineer Intern", some "Acme", [("languages", ["Python"])]⟩

def nurseJob : JobPosting :=
  ⟨"General Hospital", "Clinical Nurse", "Toronto, ON", "https://jobs.example.com/nurse?src=gh"⟩

def nurseParsed : ParsedRaw :=
  ⟨some "Clinical Nurse", some "General Hospital", [("concepts", ["Patient Care"])]⟩

def longContent : String := String.mk (List.replicate 500 'x')

def defaultConfig : SchedulerConfig := ⟨24, 10, 5, none, true⟩

/-- Claim C1: the claim says run_once invokes the fetch, filter and
orchestrate pipeline exactly once and returns aggregate stats, falling back
to a failure stat object only on a top-level exception. In the code the
call to run_batch_pipeline passes the keyword skip_failed, which is not a
parameter of run_batch_pipeline, so binding raises TypeError inside the
try block for every scheduler configuration: the pipeline body is never
entered and run_once always returns the failure stat object. -/
theorem run_once_never_runs_pipeline :
    ∀ (cfg : SchedulerConfig) (outcome : Except String (List ProcessResult))
      (elapsed : Nat),
      kwargs_accepted run_batch_pipeline_params run_once_call_kwargs = false
      ∧ (run_once cfg outcome elapsed).2 = false
      ∧ (run_once cfg outcome elapsed).1.success = false := by
  intro cfg outcome elapsed
  have hk : kwargs_accepted run_batch_pipeline_params run_once_call_kwargs = false := by
    decide
  refine ⟨hk, ?_, ?_⟩ <;> simp [run_once, hk]

/-- Claim C2: a failing candidate pipeline does produce a FAILED result,
but no FailedEntry is ever written: process_single_job leaves the
failed_urls table untouched on every path, because save_failed_url has no
caller in the pipeline. The last two conjuncts record that save_failed_url
itself, were it called, would create with attempts = 1 and on repeat
increment the counter and overwrite error and timestamp, as the claim
describes. -/
theorem failed_candidate_never_reaches_ledger :
    (∀ (fetch : FetchOutcome) (parse : ParseOutcome) (failAt : Option Nat)
        (db : DBState) (job : JobPosting),
        (process_single_job fetch parse failAt db job).2.failed_urls = db.failed_urls)
    ∧ (process_single_job (.ok (some "")) .failure none dbEmpty exampleJob).1.success = false
    ∧ (process_single_job (.ok (some "")) .failure none dbEmpty exampleJob).2 = dbEmpty
    ∧ save_failed_url 5 dbEmpty "https://jobs.example.com/1" "boom" =
        { dbEmpty with
            failed_urls := [⟨"https://jobs.example.com/1", "boom", 1, 5, 5⟩] }
    ∧ save_failed_url 9 (save_failed_url 5 dbEmpty "https://jobs.example.com/1" "boom")
        "https://jobs.example.com/1" "again" =
        { dbEmpty with
            failed_urls := [⟨"https://jobs.example.com/1", "again", 2, 5, 9⟩] } :=
  ⟨process_single_job_failed_urls, by decide, by decide, by decide, by decide⟩

/-- Claim C3: retry mode never takes effect. The scheduler wires
retry_failed into skip_failed, but run_once cannot forward it: the
keyword is rejected by run_batch_pipeline (first conjunct), and even the
pipeline itself calls filter_new_jobs without the flag, so the filter it
runs is the same for every scheduler configuration (second conjunct) and
always keeps the failure-ledger urls inside the skip-set (third
conjunct). The wiring itself, skip_failed = not retry_failed, is the
fourth conjunct. -/
theorem retry_flag_never_reaches_filter :
    kwargs_accepted run_batch_pipeline_params run_once_call_kwargs = false
    ∧ (∀ (cfg cfg2 : SchedulerConfig) (db : DBState) (jobs : List JobPosting),
        run_batch_pipeline_filter cfg db jobs = run_batch_pipeline_filter cfg2 db jobs)
    ∧ (∀ (cfg : SchedulerConfig) (db : DBState) (jobs : List JobPosting),
        (run_batch_pipeline_filter cfg db jobs).all
          (fun j => !((get_failed_urls db).contains j.apply_url)) = true)
    ∧ (run_scheduled_pipeline_config 24 10 5 none true).skip_failed = false := by
  refine ⟨by decide, ?_, ?_, by decide⟩
  · intro cfg cfg2 db jobs
    rfl
  · intro cfg db jobs
    unfold run_batch_pipeline_filter filter_new_jobs
    rw [filterLoop_eq_filter, List.all_eq_true]
    intro j hj
    rw [List.mem_filter] at hj
    obtain ⟨-, hpred⟩ := hj
    simp only [Bool.and_eq_true, Bool.not_eq_true'] at hpred
    obtain ⟨h1, -⟩ := hpred
    simp only [Bool.not_eq_true']
    simp at h1 ⊢
    exact h1.2

/-- Claim C4: normalize_skill agrees with the staged reference algorithm
written from the specification, and on the quoted examples. -/
theorem normalize_skill_staged_spec :
    (∀ s : String, normalize_skill s = normalizeSkillSpec s)
    ∧ normalize_skill "javascript" = ["JavaScript"]
    ∧ normalize_skill "React/Vue" = ["React", "Vue"]
    ∧ normalize_skill "problem solving" = []
    ∧ normalize_skill "c++" = ["C/C++"]
    ∧ normalize_skill "" = [] := by
  refine ⟨?_, by decide, by decide, by decide, by decide, by decide⟩
  intro s
  unfold normalize_skill normalizeSkillSpec
  simp only [splitPartsLoop_eq, List.nil_append]

/-- Claim C5: categorize_job_title returns the category of the first rule,
in table order, with a keyword substring-matching the lower-cased title,
and Other when none matches; the DevOps Engineer example resolves to the
DevOps rule, which precedes the Software Engineering rule in the table
even though the latter also has a matching keyword. -/
theorem categorize_job_title_first_match :
    (∀ t : String, categorize_job_title (some t) = categorizeSpec t)
    ∧ categorize_job_title (some "DevOps Engineer") = "DevOps / Infrastructure"
    ∧ JOB_CATEGORIES.map Prod.fst =
        ["Machine Learning / AI", "Data Science", "Research",
          "DevOps / Infrastructure", "Software Engineering"]
    ∧ (JOB_CATEGORIES.find? (fun rule => rule.1 = "Software Engineering")).map
        (fun rule => rule.2.any (fun k => strContains (lowerStr "DevOps Engineer") k)) =
        some true := by
  refine ⟨?_, by decide, by decide, by decide⟩
  intro t
  by_cases ht : t = ""
  · subst ht; decide
  · simp [categorize_job_title, ht, categorizeSpec, scanRules_eq_find]

/-- Claim C6: filter_new_jobs keeps exactly the candidates whose url,
verbatim and with the query string stripped, avoids the skip-set built
from the processed urls united with, unless retry is requested, the
failure-ledger urls; the survivors form a sublist of the input, so input
order is preserved. -/
theorem filter_new_jobs_partition :
    ∀ (db : DBState) (jobs : List JobPosting) (skip_failed : Bool),
      filter_new_jobs db jobs skip_failed =
        jobs.filter (fun j =>
          !((skipSet db skip_failed).contains j.apply_url)
          && !((skipSet db skip_failed).contains (stripQuery j.apply_url)))
      ∧ (filter_new_jobs db jobs skip_failed).Sublist jobs := by
  intro db jobs sf
  have he : filter_new_jobs db jobs sf =
      jobs.filter (fun j =>
        !((skipSet db sf).contains j.apply_url)
        && !((skipSet db sf).contains (stripQuery j.apply_url))) := by
    unfold filter_new_jobs skipSet
    exact filterLoop_eq_filter _ jobs
  exact ⟨he, he ▸ List.filter_sublist jobs⟩

/-- Claim C7: each collected result increments processed and exactly one of
succeeded or failed, so processed = succeeded + failed holds after every
prefix of the stats loop; and with processed = 0 the summary reports the
undefined sentinel instead of dividing. -/
theorem run_counters_invariant :
    (∀ (s : Stats) (results : List ProcessResult) (k : Nat),
        s.processed = s.succeeded + s.failed →
        (update_stats s (results.take k)).processed =
          (update_stats s (results.take k)).succeeded +
            (update_stats s (results.take k)).failed)
    ∧ (∀ s : Stats, s.processed = 0 → success_rate s = none) := by
  constructor
  · intro s results k h
    exact update_stats_invariant (results.take k) s h
  · intro s h
    simp [success_rate, h]

/-- Witness for the stats invariant at a concrete run prefix. -/
theorem run_counters_invariant_witness :
    ((update_stats ⟨0, 0, 0⟩ (([⟨exampleJob, true, none, none⟩] :
        List ProcessResult).take 1)).processed =
      (update_stats ⟨0, 0, 0⟩ (([⟨exampleJob, true, none, none⟩] :
        List ProcessResult).take 1)).succeeded +
        (update_stats ⟨0, 0, 0⟩ (([⟨exampleJob, true, none, none⟩] :
          List ProcessResult).take 1)).failed)
    ∧ success_rate ⟨0, 0, 0⟩ = none :=
  ⟨run_counters_invariant.1 ⟨0, 0, 0⟩ [⟨exampleJob, true, none, none⟩] 1 rfl,
    run_counters_invariant.2 ⟨0, 0, 0⟩ rfl⟩

/-- Claim C8 counterexample: a candidate titled Clinical Nurse is fetched
and extracted, the persist step leaves the store untouched, yet its
result carries success = true and the stats loop counts it as succeeded
and not as failed — in the run's accounting the silent drop is not
distinct from success, contrary to the claim. -/
theorem nontech_drop_counted_as_success :
    (process_single_job (.ok (some longContent)) (.ok nurseParsed) none
        dbEmpty nurseJob).1.success = true
    ∧ (process_single_job (.ok (some longContent)) (.ok nurseParsed) none
        dbEmpty nurseJob).2 = dbEmpty
    ∧ (update_stats ⟨0, 0, 0⟩
        [(process_single_job (.ok (some longContent)) (.ok nurseParsed) none
          dbEmpty nurseJob).1]).succeeded = 1
    ∧ (update_stats ⟨0, 0, 0⟩
        [(process_single_job (.ok (some longContent)) (.ok nurseParsed) none
          dbEmpty nurseJob).1]).failed = 0 := by
  refine ⟨by decide, by decide, by decide, by decide⟩

/-- Claim C8 amended: a candidate whose enriched title is non-technical is
still fetched and extracted, the persist step discards it silently — no
JobRecord, no skill rows, no FailedEntry, the store is unchanged — but
the candidate's pipeline returns a SUCCESS result, so in the run's
accounting it is counted as succeeded rather than as an outcome distinct
from success. -/
theorem nontech_candidate_dropped_but_success :
    ∀ (content : String) (parsed : ParsedRaw) (db : DBState) (job : JobPosting)
      (failAt : Option Nat) (s : Stats),
      500 ≤ content.length →
      is_tech_related_job (enrichTitle parsed job) = false →
      (process_single_job (.ok (some content)) (.ok parsed) failAt db job).1.success = true
      ∧ (process_single_job (.ok (some content)) (.ok parsed) failAt db job).2 = db
      ∧ (update_stats s [(process_single_job (.ok (some content)) (.ok parsed)
          failAt db job).1]).succeeded = s.succeeded + 1 := by
  intro content parsed db job failAt s hlen htech
  have hne : content ≠ "" := by
    intro h
    subst h
    exact absurd hlen (by decide)
  have h1 : pyFalsyStr (some content) = false := by
    simp [pyFalsyStr, hne]
  have h2 : decide (contentLen (some content) < 500) = false := by
    simp [contentLen]
    omega
  have hsave : save_job_data failAt db (enrichedJobData parsed job) = db := by
    unfold save_job_data
    have ht : is_tech_related_job (enrichedJobData parsed job).job_title = false := htech
    simp [ht]
  have hrun : process_single_job (.ok (some content)) (.ok parsed) failAt db job =
      (⟨job, true, none, some (enrichedJobData parsed job)⟩, db) := by
    simp [process_single_job, h1, h2, hsave]
  refine ⟨by rw [hrun], by rw [hrun], ?_⟩
  rw [hrun]
  simp [update_stats, statsStep]

/-- Witness for the amended C8 statement at the Clinical Nurse fixture. -/
theorem nontech_candidate_dropped_but_success_witness :
    (process_single_job (.ok (some longContent)) (.ok nurseParsed) none
        dbEmpty nurseJob).1.success = true
    ∧ (process_single_job (.ok (some longContent)) (.ok nurseParsed) none
        dbEmpty nurseJob).2 = dbEmpty
    ∧ (update_stats ⟨3, 2, 1⟩ [(process_single_job (.ok (some longContent))
        (.ok nurseParsed) none dbEmpty nurseJob).1]).succeeded = 2 + 1 :=
  nontech_candidate_dropped_but_success longContent nurseParsed dbEmpty nurseJob
    none ⟨3, 2, 1⟩ (by decide) (by decide)

/-- Claim C9: in the step-relation model of the admission gate — the
asyncio semaphore acquired around the fetch/extract/persist body of
process_single_job — every state reachable from a run start with any
number of submitted tasks keeps the number of in-flight candidates at or
below max_concurrent; entry is possible only when a slot is free, and the
bound is independent of how the tasks are batched, since n is arbitrary. -/
theorem admission_gate_bounds_inflight :
    ∀ (max_concurrent n : Nat) (st : GateState),
      GateReachable max_concurrent n st →
      inflightCount st.tasks ≤ max_concurrent := by
  intro m n st h
  have hinv := gateReachable_inv m n st h
  omega

/-- Witness: after one acquire step from a run with five slots and three
tasks, the in-flight count is within the bound. -/
theorem admission_gate_bounds_inflight_witness :
    inflightCount ((List.replicate 3 TaskPhase.queued).set 0 TaskPhase.inflight) ≤ 5 :=
  admission_gate_bounds_inflight 5 3
    ⟨4, (List.replicate 3 TaskPhase.queued).set 0 TaskPhase.inflight⟩
    (Relation.ReflTransGen.single
      (GateStep.acquire 4 (List.replicate 3 TaskPhase.queued) 0 (by decide)))

/-- Claim C10: when a statement inside the save_job_data transaction
raises, the except branch rolls the transaction back — the store equals
its entry state, so no partial job, skill or link rows and no FailedEntry
remain — and the exception is not re-raised, so the candidate pipeline
still returns SUCCESS and the stats loop increments succeeded, never
failed. -/
theorem persist_failure_rolled_back_still_success :
    ∀ (content : String) (parsed : ParsedRaw) (db : DBState) (job : JobPosting)
      (k : Nat) (s : Stats),
      500 ≤ content.length →
      is_tech_related_job (enrichTitle parsed job) = true →
      k < (save_job_data_ops (enrichedJobData parsed job)).length →
      (process_single_job (.ok (some content)) (.ok parsed) (some k) db job).1.success = true
      ∧ (process_single_job (.ok (some content)) (.ok parsed) (some k) db job).2 = db
      ∧ (update_stats s [(process_single_job (.ok (some content)) (.ok parsed)
          (some k) db job).1]).succeeded = s.succeeded + 1
      ∧ (update_stats s [(process_single_job (.ok (some content)) (.ok parsed)
          (some k) db job).1]).failed = s.failed := by
  intro content parsed db job k s hlen htech hk
  have hne : content ≠ "" := by
    intro h
    subst h
    exact absurd hlen (by decide)
  have h1 : pyFalsyStr (some content) = false := by
    simp [pyFalsyStr, hne]
  have h2 : decide (contentLen (some content) < 500) = false := by
    simp [contentLen]
    omega
  have hsave : save_job_data (some k) db (enrichedJobData parsed job) = db := by
    unfold save_job_data
    have ht : is_tech_related_job (enrichedJobData parsed job).job_title = true := htech
    rw [runOps_error_of_lt _ db k hk]
    simp [ht]
  have hrun : process_single_job (.ok (some content)) (.ok parsed) (some k) db job =
      (⟨job, true, none, some (enrichedJobData parsed job)⟩, db) := by
    simp [process_single_job, h1, h2, hsave]
  refine ⟨by rw [hrun], by rw [hrun], ?_, ?_⟩ <;>
    rw [hrun] <;> simp [update_stats, statsStep]

/-- Witness for C10: the job upsert statement itself fails on a technical
candidate; the store is untouched and the result is SUCCESS. -/
theorem persist_failure_rolled_back_still_success_witness :
    (process_single_job (.ok (some longContent)) (.ok techParsed) (some 0)
        dbEmpty exampleJob).1.success = true
    ∧ (process_single_job (.ok (some longContent)) (.ok techParsed) (some 0)
        dbEmpty exampleJob).2 = dbEmpty
    ∧ (update_stats ⟨0, 0, 0⟩ [(process_single_job (.ok (some longContent))
        (.ok techParsed) (some 0) dbEmpty exampleJob).1]).succeeded = 0 + 1
    ∧ (update_stats ⟨0, 0, 0⟩ [(process_single_job (.ok (some longContent))
        (.ok techParsed) (some 0) dbEmpty exampleJob).1]).failed = 0 :=
  persist_failure_rolled_back_still_success longContent techParsed dbEmpty exampleJob
    0 ⟨0, 0, 0⟩ (by decide) (by decide) (by decide)
